import Mathlib

/-!
Verification of `raug/checkpoints.py`: a shallow embedding of the module's
three functions (`save_model`, `save_model_as_onnx`, `load_model`) over an
explicit filesystem state, together with proofs of the specification's
properties.

Modelling conventions:
* A filesystem path is a list of components (`os.path.join p s = p ++ [s]`).
* The filesystem is a pair of a directory list and an association list of
  files; writes are pure state transformations, and Python exceptions are
  the `Except` error branch.
* `torch.save`/`torch.load` serialize a checkpoint dictionary exactly
  (serialization is modelled as the identity on the dictionary, so a file
  stores the dictionary it was saved from); a checkpoint dictionary has
  the four optional fields a Python dict may or may not contain.
* A torch module is either a plain module holding a state dict, or a
  `DataParallel`-style wrapper around an inner module (`.module` unwraps);
  the wrapper's own `state_dict()` prefixes every key with `module`, as
  `DataParallel` does, and `load_state_dict` strips that component again.
  Console output (`verbose` printing) has no observable effect on the
  state and is not modelled.
-/

namespace Raug

/-- A tensor of parameters (a flat numeric array suffices for the model). -/
abbrev Tensor := List Int

/-- A parameter name, as dotted-path components (torch uses dotted strings). -/
abbrev Key := List String

/-- `model.state_dict()`: parameter name to tensor. -/
abbrev StateDict := List (Key × Tensor)

/-- `optimizer.state_dict()`: opaque optimizer bookkeeping. -/
abbrev OptState := List (String × Int)

/-- A filesystem path, as a list of components from the root. -/
abbrev Path := List String

/-- `os.path.join folder name` appends one component. -/
def os_path_join (p : Path) (s : String) : Path := p ++ [s]

/-- Render a path as the string Python would interpolate into a message. -/
def pathToString (p : Path) : String := String.intercalate "/" p

/-- A torch module: plain, or a `DataParallel`-style wrapper with an inner
module one level deeper.  Each module records its `training` flag. -/
inductive TorchModule where
  | base (sd : StateDict) (training : Bool)
  | wrapped (inner : TorchModule) (training : Bool)
deriving DecidableEq, Repr

/-- `model.module`: the inner module of a multi-device wrapper. -/
def TorchModule.module : TorchModule → TorchModule
  | .base sd t => .base sd t
  | .wrapped inner _ => inner

/-- `model.state_dict()`; a wrapper prefixes each key with a `module`
component, as `DataParallel` does. -/
def TorchModule.state_dict : TorchModule → StateDict
  | .base sd _ => sd
  | .wrapped inner _ => inner.state_dict.map (fun kv => ("module" :: kv.1, kv.2))

/-- Strip a leading `module` component from a key, if present. -/
def stripModuleKey (k : Key) : Key :=
  match k with
  | s :: rest => if s = "module" then rest else k
  | [] => k

/-- `model.load_state_dict d`: replace the module's parameters with `d`
(in Python this mutates; here it returns the updated module).  A wrapper
delegates to its inner module after stripping the `module` key component. -/
def TorchModule.load_state_dict : TorchModule → StateDict → TorchModule
  | .base _ t, d => .base d t
  | .wrapped inner t, d =>
      .wrapped (inner.load_state_dict (d.map (fun kv => (stripModuleKey kv.1, kv.2)))) t

/-- `model.eval()`: switch the module (and its submodules) to evaluation
mode; returns the mutated module. -/
def TorchModule.eval : TorchModule → TorchModule
  | .base sd _ => .base sd false
  | .wrapped inner _ => .wrapped inner.eval false

/-- The module's `training` flag. -/
def TorchModule.training : TorchModule → Bool
  | .base _ t => t
  | .wrapped _ t => t

/-- Two modules have the same architecture when their wrapper nesting
agrees (a freshly initialized copy of the same network). -/
def sameArch : TorchModule → TorchModule → Bool
  | .base _ _, .base _ _ => true
  | .wrapped i _, .wrapped j _ => sameArch i j
  | _, _ => false

/-- An optimizer, holding only its state dict. -/
structure Optimizer where
  state : OptState
deriving DecidableEq, Repr

/-- `optimizer.state_dict()`. -/
def Optimizer.state_dict (o : Optimizer) : OptState := o.state

/-- `optimizer.load_state_dict s` (mutation modelled by returning). -/
def Optimizer.load_state_dict (_o : Optimizer) (s : OptState) : Optimizer := ⟨s⟩

/-- The checkpoint dictionary as stored in a `.pth` file.  A Python dict
may lack any of the keys, hence `Option` fields; `dict[key]` on a missing
key raises `KeyError`. -/
structure CkptDict where
  epoch : Option Int
  model_state_dict : Option StateDict
  optimizer_state_dict : Option OptState
  loss : Option Int
deriving DecidableEq, Repr

/-- The ONNX artifact written by `torch.onnx.export`: the exported graph
(determined by the module actually passed) plus the declared names/axes. -/
structure OnnxArtifact where
  graph : TorchModule
  input_names : List String
  output_names : List String
  dynamic_axes : List (String × List (Nat × String))
deriving DecidableEq, Repr

/-- Contents of a file on disk. -/
inductive Content where
  | ckpt (d : CkptDict)
  | onnx (a : OnnxArtifact)
deriving DecidableEq, Repr

/-- Python exceptions the module can raise. -/
inductive PyError where
  | exception (msg : String)
  | keyError (key : String)
  | fileExistsError (p : Path)
  | fileNotFoundError (p : Path)
  | unpicklingError (p : Path)
deriving DecidableEq, Repr

/-- The filesystem: existing directories and files with their contents. -/
structure FS where
  dirs : List Path
  files : List (Path × Content)
deriving DecidableEq, Repr

/-- Does directory `p` exist? -/
def FS.dirExists (fs : FS) (p : Path) : Bool := decide (p ∈ fs.dirs)

/-- The contents of file `p`, if it exists. -/
def FS.getFile (fs : FS) (p : Path) : Option Content :=
  match fs.files.find? (fun pc => decide (pc.1 = p)) with
  | some pc => some pc.2
  | none => none

/-- `os.path.exists`: true for an existing directory or file. -/
def os_path_exists (fs : FS) (p : Path) : Bool :=
  fs.dirExists p || (fs.getFile p).isSome

/-- Create or overwrite file `p` with contents `c`. -/
def FS.writeFile (fs : FS) (p : Path) (c : Content) : FS :=
  { fs with files := (p, c) :: fs.files }

/-- `os.mkdir`: non-recursive directory creation.  Raises
`FileExistsError` if `p` already exists, `FileNotFoundError` if the
parent directory is missing. -/
def os_mkdir (fs : FS) (p : Path) : Except PyError FS :=
  if os_path_exists fs p then .error (.fileExistsError p)
  else if fs.dirExists p.dropLast then .ok { fs with dirs := p :: fs.dirs }
  else .error (.fileNotFoundError p)

/-- `torch.save obj path` writes the serialized dictionary. -/
def torch_save (fs : FS) (obj : CkptDict) (p : Path) : FS :=
  fs.writeFile p (.ckpt obj)

/-- `torch.load path` reads back the dictionary stored at `path`. -/
def torch_load (fs : FS) (p : Path) : Except PyError CkptDict :=
  match fs.getFile p with
  | some (.ckpt d) => .ok d
  | some (.onnx _) => .error (.unpicklingError p)
  | none => .error (.fileNotFoundError p)

/-- A filesystem is well formed when every directory other than the root
has an existing parent directory, and every file sits in an existing
directory. -/
def FS.Wf (fs : FS) : Prop :=
  (∀ p ∈ fs.dirs, p = [] ∨ fs.dirExists p.dropLast = true) ∧
  (∀ e ∈ fs.files, e.1 ≠ [] ∧ fs.dirExists e.1.dropLast = true)

instance (fs : FS) : Decidable fs.Wf := by
  unfold FS.Wf; infer_instance

/-- The `last-checkpoint` subfolder path used by `save_model`. -/
def last_check_path (folder_path : Path) : Path :=
  os_path_join folder_path "last-checkpoint"

/-- The `best-checkpoint` subfolder path used by `save_model`. -/
def best_check_path (folder_path : Path) : Path :=
  os_path_join folder_path "best-checkpoint"

/-- The file `save_model` always writes. -/
def last_ckpt_file (folder_path : Path) : Path :=
  os_path_join (last_check_path folder_path) "last-checkpoint.pth"

/-- The file `save_model` writes when `is_best`. -/
def best_ckpt_file (folder_path : Path) : Path :=
  os_path_join (best_check_path folder_path) "best-checkpoint.pth"

/-- The `info_to_save` dictionary built by `save_model`. -/
def save_info (model : TorchModule) (epoch : Int) (opt_fn : Optimizer)
    (loss_fn : Int) (multi_gpu : Bool) : CkptDict :=
  { epoch := some epoch
    model_state_dict :=
      some (if multi_gpu then model.module.state_dict else model.state_dict)
    optimizer_state_dict := some opt_fn.state_dict
    loss := some loss_fn }

/-- `save_model` from `raug/checkpoints.py`: ensure the two checkpoint
subfolders exist (creating them when absent), always write the snapshot
into `last-checkpoint`, and also into `best-checkpoint` when `is_best`. -/
def save_model (fs : FS) (model : TorchModule) (folder_path : Path)
    (epoch : Int) (opt_fn : Optimizer) (loss_fn : Int) (is_best : Bool)
    (multi_gpu : Bool) : Except PyError FS :=
  match (if os_path_exists fs (last_check_path folder_path) then Except.ok fs
         else os_mkdir fs (last_check_path folder_path)) with
  | .error e => .error e
  | .ok fsA =>
    match (if os_path_exists fsA (best_check_path folder_path) then Except.ok fsA
           else os_mkdir fsA (best_check_path folder_path)) with
    | .error e => .error e
    | .ok fsB =>
      let info_to_save := save_info model epoch opt_fn loss_fn multi_gpu
      let fsC := torch_save fsB info_to_save (last_ckpt_file folder_path)
      .ok (if is_best then torch_save fsC info_to_save (best_ckpt_file folder_path)
           else fsC)

/-- `torch.onnx.export`: writes the ONNX graph of the module it is given
(the sample input drives tracing but does not appear in the artifact). -/
def torch_onnx_export (fs : FS) (model : TorchModule) (_input_data : List Tensor)
    (p : Path) (input_names output_names : List String)
    (dynamic_axes : List (String × List (Nat × String))) : FS :=
  fs.writeFile p (.onnx ⟨model, input_names, output_names, dynamic_axes⟩)

/-- `save_model_as_onnx` from `raug/checkpoints.py`: ensure the folder
exists, switch the model to evaluation mode (a persistent mutation,
returned alongside the filesystem), unwrap when `use_parallel`, and
export.  Returns the new filesystem and the caller's (mutated) model. -/
def save_model_as_onnx (fs : FS) (model : TorchModule) (folder_path : Path)
    (name : String) (input_data : List Tensor)
    (input_names output_names : List String)
    (dynamic_axes : List (String × List (Nat × String)))
    (use_parallel : Bool) : Except PyError (FS × TorchModule) :=
  match (if os_path_exists fs folder_path then Except.ok fs
         else os_mkdir fs folder_path) with
  | .error e => .error e
  | .ok fsA =>
    let model1 := model.eval
    let m := if use_parallel then model1.module else model1
    let fsB := torch_onnx_export fsA m input_data (os_path_join folder_path name)
        input_names output_names dynamic_axes
    .ok (fsB, model1)

/-- The result of `load_model`: either just the model, or the 4-tuple
`(model, optimizer, loss, epoch)`. -/
inductive LoadResult where
  | modelOnly (model : TorchModule)
  | full (model : TorchModule) (opt : Optimizer) (loss : Int) (epoch : Int)
deriving DecidableEq, Repr

/-- `load_model` from `raug/checkpoints.py`: raise if the path does not
exist, `torch.load` the checkpoint, restore `model_state_dict`, and when
both `opt_fn` and `loss_fn` are non-`None` also restore the optimizer and
return the snapshot's loss and epoch.  The `epoch` argument is accepted
and ignored, as in the source. -/
def load_model (fs : FS) (checkpoint_path : Path) (model : TorchModule)
    (opt_fn : Option Optimizer) (loss_fn : Option Int) (epoch : Option Int) :
    Except PyError LoadResult :=
  if ¬ os_path_exists fs checkpoint_path then
    .error (.exception ("The " ++ pathToString checkpoint_path ++ " does not exist!"))
  else
    match torch_load fs checkpoint_path with
    | .error e => .error e
    | .ok ckpt =>
      match ckpt.model_state_dict with
      | none => .error (.keyError "model_state_dict")
      | some msd =>
        let model1 := model.load_state_dict msd
        match opt_fn, loss_fn with
        | some o, some _ =>
          (match ckpt.optimizer_state_dict with
           | none => .error (.keyError "optimizer_state_dict")
           | some osd =>
             let o1 := o.load_state_dict osd
             match ckpt.epoch with
             | none => .error (.keyError "epoch")
             | some e =>
               match ckpt.loss with
               | none => .error (.keyError "loss")
               | some l => .ok (.full model1 o1 l e))
        | _, _ => .ok (.modelOnly model1)

/-! ### Concrete fixtures used by the witness theorems -/

/-- A filesystem with a root directory and an existing `ckpt` folder. -/
def fsW : FS := ⟨[[], ["ckpt"]], []⟩

/-- A two-parameter toy state dict. -/
def sdW : StateDict := [(["w"], [1, 2]), (["b"], [3])]

/-- A trained toy model. -/
def MW : TorchModule := .base sdW true

/-- A freshly initialized model of the same architecture as `MW`. -/
def MW0 : TorchModule := .base [(["w"], [0, 0]), (["b"], [0])] true

/-- A toy optimizer. -/
def optW : Optimizer := ⟨[("lr", 1)]⟩

/-- A full checkpoint dictionary stored on disk. -/
def dW : CkptDict := ⟨some 5, some sdW, some [("m", 7)], some 42⟩

/-- A filesystem holding the full checkpoint at `ck`. -/
def fsL : FS := ⟨[[]], [(["ck"], .ckpt dW)]⟩

/-- A checkpoint dictionary that lacks epoch, optimizer state and loss. -/
def dMin : CkptDict := ⟨none, some sdW, none, none⟩

/-- A filesystem holding only the minimal checkpoint at `ck`. -/
def fsLmin : FS := ⟨[[]], [(["ck"], .ckpt dMin)]⟩

/-- An inner single-device model. -/
def innerW : TorchModule := .base sdW true

/-- `innerW` wrapped in a DataParallel-style wrapper. -/
def wrapW : TorchModule := .wrapped innerW true

/-- A filesystem with only a root, used for the missing-folder witness. -/
def fsRoot : FS := ⟨[[]], []⟩

/-- The filesystem produced by `save_model fsW MW ["ckpt"] 5 optW 42 true false`. -/
def fsW1 : FS :=
  ⟨[["ckpt", "best-checkpoint"], ["ckpt", "last-checkpoint"], [], ["ckpt"]],
   [(["ckpt", "best-checkpoint", "best-checkpoint.pth"],
      .ckpt ⟨some 5, some sdW, some [("lr", 1)], some 42⟩),
    (["ckpt", "last-checkpoint", "last-checkpoint.pth"],
      .ckpt ⟨some 5, some sdW, some [("lr", 1)], some 42⟩)]⟩

/-! ### Basic filesystem lemmas -/

theorem dropLast_join (p : Path) (s : String) : (os_path_join p s).dropLast = p := by
  simp [os_path_join]

theorem getFile_eq_of_files_eq {fs1 fs2 : FS} (h : fs1.files = fs2.files) (q : Path) :
    fs1.getFile q = fs2.getFile q := by
  simp only [FS.getFile, h]

theorem dirExists_writeFile (fs : FS) (p q : Path) (c : Content) :
    (fs.writeFile p c).dirExists q = fs.dirExists q := rfl

theorem getFile_writeFile_self (fs : FS) (p : Path) (c : Content) :
    (fs.writeFile p c).getFile p = some c := by
  simp [FS.writeFile, FS.getFile, List.find?]

theorem getFile_writeFile_of_ne (fs : FS) (p q : Path) (c : Content) (h : q ≠ p) :
    (fs.writeFile p c).getFile q = fs.getFile q := by
  simp [FS.writeFile, FS.getFile, List.find?, Ne.symm h]

theorem exists_writeFile_mono {fs : FS} {q : Path} (p : Path) (c : Content)
    (h : os_path_exists fs q = true) : os_path_exists (fs.writeFile p c) q = true := by
  by_cases hq : q = p
  · subst hq
    simp [os_path_exists, getFile_writeFile_self]
  · simp only [os_path_exists, dirExists_writeFile, getFile_writeFile_of_ne fs p q c hq]
    exact h

theorem os_mkdir_ok {fs fs' : FS} {p : Path} (h : os_mkdir fs p = .ok fs') :
    fs' = ⟨p :: fs.dirs, fs.files⟩ ∧ os_path_exists fs p = false ∧
      fs.dirExists p.dropLast = true := by
  unfold os_mkdir at h
  split_ifs at h with h1 h2
  cases h
  exact ⟨rfl, by simpa using h1, h2⟩

theorem dirExists_cons_self (ds : List Path) (fl : List (Path × Content)) (p : Path) :
    FS.dirExists ⟨p :: ds, fl⟩ p = true := by
  simp [FS.dirExists]

theorem dirExists_cons_mono {fs : FS} {q : Path} (p : Path)
    (h : fs.dirExists q = true) : FS.dirExists ⟨p :: fs.dirs, fs.files⟩ q = true := by
  simp only [FS.dirExists, decide_eq_true_eq, List.mem_cons] at h ⊢
  exact Or.inr h

theorem exists_cons_mono {fs : FS} {q : Path} (p : Path)
    (h : os_path_exists fs q = true) :
    os_path_exists ⟨p :: fs.dirs, fs.files⟩ q = true := by
  simp only [os_path_exists, Bool.or_eq_true] at h ⊢
  rcases h with h | h
  · exact Or.inl (dirExists_cons_mono p h)
  · exact Or.inr (by rw [@getFile_eq_of_files_eq ⟨p :: fs.dirs, fs.files⟩ fs rfl q]; exact h)

theorem ensure_dir_ok (fs : FS) (p : Path) (hparent : fs.dirExists p.dropLast = true) :
    ∃ fsA, (if os_path_exists fs p then Except.ok fs else os_mkdir fs p) = .ok fsA ∧
      os_path_exists fsA p = true ∧
      fsA.files = fs.files ∧
      (∀ q, os_path_exists fs q = true → os_path_exists fsA q = true) ∧
      (∀ q, fs.dirExists q = true → fsA.dirExists q = true) := by
  by_cases h : os_path_exists fs p
  · exact ⟨fs, by simp [h], h, rfl, fun _ hq => hq, fun _ hq => hq⟩
  · refine ⟨⟨p :: fs.dirs, fs.files⟩, ?_, ?_, rfl, ?_, ?_⟩
    · simp [h, os_mkdir, hparent]
    · simp only [os_path_exists, Bool.or_eq_true]
      exact Or.inl (dirExists_cons_self _ _ _)
    · exact fun q hq => exists_cons_mono p hq
    · exact fun q hq => dirExists_cons_mono p hq

theorem ensure_dir_inv {fs fsA : FS} {p : Path}
    (h : (if os_path_exists fs p then Except.ok fs else os_mkdir fs p) = .ok fsA) :
    os_path_exists fsA p = true ∧ fsA.files = fs.files ∧
      (∀ q, os_path_exists fs q = true → os_path_exists fsA q = true) := by
  by_cases hex : os_path_exists fs p
  · rw [if_pos hex] at h
    cases h
    exact ⟨hex, rfl, fun _ hq => hq⟩
  · rw [if_neg hex] at h
    obtain ⟨rfl, -, -⟩ := os_mkdir_ok h
    refine ⟨?_, rfl, fun q hq => exists_cons_mono p hq⟩
    simp only [os_path_exists, Bool.or_eq_true]
    exact Or.inl (dirExists_cons_self _ _ _)

theorem os_path_exists_of_getFile {fs : FS} {p : Path} {c : Content}
    (h : fs.getFile p = some c) : os_path_exists fs p = true := by
  simp [os_path_exists, h]

theorem last_ne_best (folder_path : Path) :
    last_ckpt_file folder_path ≠ best_ckpt_file folder_path := by
  intro h
  simp only [last_ckpt_file, best_ckpt_file, last_check_path, best_check_path,
    os_path_join, List.append_assoc] at h
  have h2 := List.append_cancel_left h
  exact absurd h2 (by decide)

/-! ### Master lemma for `save_model` on an existing destination folder -/

theorem save_model_ok (fs : FS) (model : TorchModule) (folder_path : Path)
    (epoch : Int) (opt_fn : Optimizer) (loss_fn : Int) (is_best : Bool) (multi_gpu : Bool)
    (hdir : fs.dirExists folder_path = true) :
    ∃ fs', save_model fs model folder_path epoch opt_fn loss_fn is_best multi_gpu = .ok fs' ∧
      fs'.getFile (last_ckpt_file folder_path) =
        some (.ckpt (save_info model epoch opt_fn loss_fn multi_gpu)) ∧
      fs'.getFile (best_ckpt_file folder_path) =
        (if is_best then some (.ckpt (save_info model epoch opt_fn loss_fn multi_gpu))
         else fs.getFile (best_ckpt_file folder_path)) ∧
      (∀ q, q ≠ last_ckpt_file folder_path → q ≠ best_ckpt_file folder_path →
        fs'.getFile q = fs.getFile q) ∧
      os_path_exists fs' (last_check_path folder_path) = true ∧
      os_path_exists fs' (best_check_path folder_path) = true ∧
      (∀ q, fs.dirExists q = true → fs'.dirExists q = true) := by
  obtain ⟨fsA, hA, hAex, hAfiles, hAmono, hAdex⟩ :=
    ensure_dir_ok fs (last_check_path folder_path)
      (by simp only [last_check_path, dropLast_join]; exact hdir)
  obtain ⟨fsB, hB, hBex, hBfiles, hBmono, hBdex⟩ :=
    ensure_dir_ok fsA (best_check_path folder_path)
      (by simp only [best_check_path, dropLast_join]; exact hAdex _ hdir)
  have hfsBfs : ∀ q, fsB.getFile q = fs.getFile q := fun q =>
    (getFile_eq_of_files_eq hBfiles q).trans (getFile_eq_of_files_eq hAfiles q)
  have hne := last_ne_best folder_path
  have hsave : save_model fs model folder_path epoch opt_fn loss_fn is_best multi_gpu =
      .ok (if is_best then
            torch_save (torch_save fsB (save_info model epoch opt_fn loss_fn multi_gpu)
              (last_ckpt_file folder_path))
              (save_info model epoch opt_fn loss_fn multi_gpu) (best_ckpt_file folder_path)
           else torch_save fsB (save_info model epoch opt_fn loss_fn multi_gpu)
              (last_ckpt_file folder_path)) := by
    unfold save_model
    rw [hA]
    simp only [hB]
  refine ⟨_, hsave, ?_, ?_, ?_, ?_, ?_, ?_⟩
  · cases is_best
    · rw [if_neg Bool.false_ne_true, torch_save]
      exact getFile_writeFile_self _ _ _
    · rw [if_pos rfl, torch_save, torch_save, getFile_writeFile_of_ne _ _ _ _ hne]
      exact getFile_writeFile_self _ _ _
  · cases is_best
    · rw [if_neg Bool.false_ne_true, torch_save,
        getFile_writeFile_of_ne _ _ _ _ (Ne.symm hne)]
      exact hfsBfs _
    · rw [if_pos rfl, torch_save, torch_save]
      exact getFile_writeFile_self _ _ _
  · intro q hq1 hq2
    cases is_best
    · rw [if_neg Bool.false_ne_true, torch_save, getFile_writeFile_of_ne _ _ _ _ hq1]
      exact hfsBfs q
    · rw [if_pos rfl, torch_save, torch_save, getFile_writeFile_of_ne _ _ _ _ hq2,
        getFile_writeFile_of_ne _ _ _ _ hq1]
      exact hfsBfs q
  · cases is_best
    · rw [if_neg Bool.false_ne_true]
      exact exists_writeFile_mono _ _ (hBmono _ hAex)
    · rw [if_pos rfl]
      exact exists_writeFile_mono _ _ (exists_writeFile_mono _ _ (hBmono _ hAex))
  · cases is_best
    · rw [if_neg Bool.false_ne_true]
      exact exists_writeFile_mono _ _ hBex
    · rw [if_pos rfl]
      exact exists_writeFile_mono _ _ (exists_writeFile_mono _ _ hBex)
  · intro q hq
    cases is_best
    · rw [if_neg Bool.false_ne_true, torch_save, dirExists_writeFile]
      exact hBdex _ (hAdex _ hq)
    · rw [if_pos rfl, torch_save, torch_save, dirExists_writeFile, dirExists_writeFile]
      exact hBdex _ (hAdex _ hq)

/-! ### Inversion and reuse lemmas for `save_model` -/

theorem save_model_of_subdirs (fs : FS) (model : TorchModule) (folder_path : Path)
    (epoch : Int) (opt_fn : Optimizer) (loss_fn : Int) (is_best : Bool) (multi_gpu : Bool)
    (h1 : os_path_exists fs (last_check_path folder_path) = true)
    (h2 : os_path_exists fs (best_check_path folder_path) = true) :
    save_model fs model folder_path epoch opt_fn loss_fn is_best multi_gpu =
      .ok (if is_best then
            torch_save (torch_save fs (save_info model epoch opt_fn loss_fn multi_gpu)
              (last_ckpt_file folder_path))
              (save_info model epoch opt_fn loss_fn multi_gpu) (best_ckpt_file folder_path)
           else torch_save fs (save_info model epoch opt_fn loss_fn multi_gpu)
              (last_ckpt_file folder_path)) := by
  unfold save_model
  rw [if_pos h1]
  simp only [if_pos h2]

theorem save_model_ok_inv {fs fs' : FS} {model : TorchModule} {folder_path : Path}
    {epoch : Int} {opt_fn : Optimizer} {loss_fn : Int} {is_best multi_gpu : Bool}
    (h : save_model fs model folder_path epoch opt_fn loss_fn is_best multi_gpu = .ok fs') :
    os_path_exists fs' (last_check_path folder_path) = true ∧
      os_path_exists fs' (best_check_path folder_path) = true := by
  unfold save_model at h
  rcases hS1 : (if os_path_exists fs (last_check_path folder_path) then Except.ok fs
      else os_mkdir fs (last_check_path folder_path)) with e | fsA
  · rw [hS1] at h
    simp at h
  · rw [hS1] at h
    dsimp only [] at h
    obtain ⟨hAex, -, -⟩ := ensure_dir_inv hS1
    rcases hS2 : (if os_path_exists fsA (best_check_path folder_path) then Except.ok fsA
        else os_mkdir fsA (best_check_path folder_path)) with e | fsB
    · rw [hS2] at h
      simp at h
    · rw [hS2] at h
      dsimp only [] at h
      obtain ⟨hBex, -, hBmono⟩ := ensure_dir_inv hS2
      simp only [Except.ok.injEq] at h
      subst h
      constructor
      · cases is_best
        · rw [if_neg Bool.false_ne_true]
          exact exists_writeFile_mono _ _ (hBmono _ hAex)
        · rw [if_pos rfl]
          exact exists_writeFile_mono _ _ (exists_writeFile_mono _ _ (hBmono _ hAex))
      · cases is_best
        · rw [if_neg Bool.false_ne_true]
          exact exists_writeFile_mono _ _ hBex
        · rw [if_pos rfl]
          exact exists_writeFile_mono _ _ (exists_writeFile_mono _ _ hBex)

/-! ### Well-formedness: a child of a missing path is missing -/

theorem getFile_some_mem {fs : FS} {q : Path} {ct : Content}
    (h : fs.getFile q = some ct) :
    ∃ e ∈ fs.files, e.1 = q ∧ e.2 = ct := by
  unfold FS.getFile at h
  rcases hf : fs.files.find? (fun pc => decide (pc.1 = q)) with - | e
  · rw [hf] at h
    simp at h
  · rw [hf] at h
    simp only [Option.some.injEq] at h
    have hm := List.mem_of_find?_eq_some hf
    have hp := List.find?_some hf
    simp only [decide_eq_true_eq] at hp
    exact ⟨e, hm, hp, h⟩

theorem not_exists_child {fs : FS} (hwf : fs.Wf) {p : Path}
    (h : os_path_exists fs p = false) (c : String) :
    os_path_exists fs (p ++ [c]) = false := by
  cases hb : os_path_exists fs (p ++ [c]) with
  | false => rfl
  | true =>
    exfalso
    simp only [os_path_exists, Bool.or_eq_true] at hb
    have hdl : (p ++ [c]).dropLast = p := by simp
    rcases hb with hb | hb
    · have hmem : p ++ [c] ∈ fs.dirs := by simpa [FS.dirExists] using hb
      rcases hwf.1 _ hmem with hnil | hpar
      · exact absurd hnil (by simp)
      · rw [hdl] at hpar
        have hex : os_path_exists fs p = true := by simp [os_path_exists, hpar]
        rw [h] at hex
        exact absurd hex (by simp)
    · obtain ⟨ct, hct⟩ := Option.isSome_iff_exists.mp hb
      obtain ⟨e, hmem, he1, -⟩ := getFile_some_mem hct
      have hpar := (hwf.2 e hmem).2
      rw [he1, hdl] at hpar
      have hex : os_path_exists fs p = true := by simp [os_path_exists, hpar]
      rw [h] at hex
      exact absurd hex (by simp)

/-! ### State-dict round trip through `load_state_dict` -/

theorem map_strip_map_mod (d : StateDict) :
    ((d.map (fun kv => ("module" :: kv.1, kv.2))).map
      (fun kv => (stripModuleKey kv.1, kv.2))) = d := by
  induction d with
  | nil => rfl
  | cons kv tl ih =>
    rw [List.map_cons, List.map_cons, ih]
    simp [stripModuleKey]

theorem load_state_dict_round_trip {M' M : TorchModule} (h : sameArch M' M = true) :
    (M'.load_state_dict M.state_dict).state_dict = M.state_dict := by
  induction M' generalizing M with
  | base sd t =>
    cases M with
    | base sd2 t2 => rfl
    | wrapped i2 t2 => simp [sameArch] at h
  | wrapped i t ih =>
    cases M with
    | base sd2 t2 => simp [sameArch] at h
    | wrapped i2 t2 =>
      have hh : sameArch i i2 = true := by simpa [sameArch] using h
      simp only [TorchModule.load_state_dict, TorchModule.state_dict]
      rw [map_strip_map_mod, ih hh]

theorem training_eval (m : TorchModule) : m.eval.training = false := by
  cases m <;> rfl

/-! ### Behaviour of `load_model` on checkpoint files -/

theorem torch_load_of_getFile {fs : FS} {p : Path} {d : CkptDict}
    (hfile : fs.getFile p = some (.ckpt d)) : torch_load fs p = .ok d := by
  unfold torch_load
  rw [hfile]

theorem load_model_none_left {fs : FS} {p : Path} {d : CkptDict} {msd : StateDict}
    (M : TorchModule) (lf : Option Int) (e0 : Option Int)
    (hfile : fs.getFile p = some (.ckpt d))
    (hmsd : d.model_state_dict = some msd) :
    load_model fs p M none lf e0 = .ok (.modelOnly (M.load_state_dict msd)) := by
  have hex : os_path_exists fs p = true := os_path_exists_of_getFile hfile
  unfold load_model
  rw [if_neg (by simp [hex]), torch_load_of_getFile hfile]
  dsimp only []
  rw [hmsd]

theorem load_model_some_none {fs : FS} {p : Path} {d : CkptDict} {msd : StateDict}
    (M : TorchModule) (o : Optimizer) (e0 : Option Int)
    (hfile : fs.getFile p = some (.ckpt d))
    (hmsd : d.model_state_dict = some msd) :
    load_model fs p M (some o) none e0 = .ok (.modelOnly (M.load_state_dict msd)) := by
  have hex : os_path_exists fs p = true := os_path_exists_of_getFile hfile
  unfold load_model
  rw [if_neg (by simp [hex]), torch_load_of_getFile hfile]
  dsimp only []
  rw [hmsd]

theorem load_model_some_some {fs : FS} {p : Path} {d : CkptDict} {msd : StateDict}
    {osd : OptState} {e l : Int} (M : TorchModule) (o : Optimizer)
    (l0 : Int) (e0 : Option Int)
    (hfile : fs.getFile p = some (.ckpt d))
    (hmsd : d.model_state_dict = some msd)
    (hosd : d.optimizer_state_dict = some osd)
    (he : d.epoch = some e) (hl : d.loss = some l) :
    load_model fs p M (some o) (some l0) e0 =
      .ok (.full (M.load_state_dict msd) (o.load_state_dict osd) l e) := by
  have hex : os_path_exists fs p = true := os_path_exists_of_getFile hfile
  unfold load_model
  rw [if_neg (by simp [hex]), torch_load_of_getFile hfile]
  dsimp only []
  rw [hmsd]
  dsimp only []
  rw [hosd]
  dsimp only []
  rw [he]
  dsimp only []
  rw [hl]

theorem torch_load_no_exception {fs : FS} {p : Path} {e : PyError}
    (h : torch_load fs p = .error e) : ∀ msg, e ≠ .exception msg := by
  unfold torch_load at h
  rcases hf : fs.getFile p with - | c
  · rw [hf] at h
    dsimp only [] at h
    cases h
    simp
  · rcases c with d | a
    · rw [hf] at h
      dsimp only [] at h
      exact absurd h (by simp)
    · rw [hf] at h
      dsimp only [] at h
      cases h
      simp

theorem load_model_not_exception {fs : FS} {p : Path} (M : TorchModule)
    (o : Option Optimizer) (lf : Option Int) (e0 : Option Int)
    (hex : os_path_exists fs p = true) :
    ∀ msg, load_model fs p M o lf e0 ≠ .error (.exception msg) := by
  intro msg
  unfold load_model
  rw [if_neg (by simp [hex])]
  rcases htl : torch_load fs p with e | d
  · dsimp only []
    intro hc
    injection hc with hc2
    exact torch_load_no_exception htl msg hc2
  · dsimp only []
    rcases hmsd : d.model_state_dict with - | msd
    · simp
    · dsimp only []
      rcases o with - | o <;> rcases lf with - | l0 <;> dsimp only []
      · simp
      · simp
      · simp
      · rcases hosd : d.optimizer_state_dict with - | osd
        · simp
        · dsimp only []
          rcases he : d.epoch with - | e
          · simp
          · dsimp only []
            rcases hl : d.loss with - | l
            · simp
            · simp

/-! ### Claim theorems -/

/-- C1. Round-trip: for every model `M` with parameter set `P`, calling
`save_model` and then `load_model` on the written last-checkpoint file with
a freshly initialized model of the same architecture restores parameters
bit-identical to `P`. -/
theorem save_load_round_trip (fs : FS) (M M' : TorchModule) (folder_path : Path)
    (epoch : Int) (opt_fn : Optimizer) (loss_fn : Int) (is_best : Bool)
    (hdir : fs.dirExists folder_path = true) (harch : sameArch M' M = true) :
    ∃ fs' M'',
      save_model fs M folder_path epoch opt_fn loss_fn is_best false = .ok fs' ∧
      load_model fs' (last_ckpt_file folder_path) M' none none none =
        .ok (.modelOnly M'') ∧
      M''.state_dict = M.state_dict := by
  obtain ⟨fs', hsave, hlast, -, -, -, -⟩ :=
    save_model_ok fs M folder_path epoch opt_fn loss_fn is_best false hdir
  refine ⟨fs', M'.load_state_dict M.state_dict, hsave, ?_,
    load_state_dict_round_trip harch⟩
  have hmsd : (save_info M epoch opt_fn loss_fn false).model_state_dict =
      some M.state_dict := by
    simp [save_info]
  exact load_model_none_left M' none none hlast hmsd

/-- C2. Best-write gating: every `save_model` call writes a snapshot into the
last-checkpoint subfolder; the best-checkpoint file is (over)written exactly
when `is_best` is true, in which case its contents equal the last file's
contents; when `is_best` is false the best file is untouched. -/
theorem save_model_best_write_gating (fs : FS) (model : TorchModule)
    (folder_path : Path) (epoch : Int) (opt_fn : Optimizer) (loss_fn : Int)
    (is_best : Bool) (multi_gpu : Bool)
    (hdir : fs.dirExists folder_path = true) :
    ∃ fs',
      save_model fs model folder_path epoch opt_fn loss_fn is_best multi_gpu = .ok fs' ∧
      fs'.getFile (last_ckpt_file folder_path) =
        some (.ckpt (save_info model epoch opt_fn loss_fn multi_gpu)) ∧
      (is_best = true →
        fs'.getFile (best_ckpt_file folder_path) =
          some (.ckpt (save_info model epoch opt_fn loss_fn multi_gpu)) ∧
        fs'.getFile (best_ckpt_file folder_path) =
          fs'.getFile (last_ckpt_file folder_path)) ∧
      (is_best = false →
        fs'.getFile (best_ckpt_file folder_path) =
          fs.getFile (best_ckpt_file folder_path)) := by
  obtain ⟨fs', hs, hlast, hbest, -, -, -, -⟩ :=
    save_model_ok fs model folder_path epoch opt_fn loss_fn is_best multi_gpu hdir
  refine ⟨fs', hs, hlast, ?_, ?_⟩
  · intro hb
    rw [hb, if_pos rfl] at hbest
    exact ⟨hbest, hbest.trans hlast.symm⟩
  · intro hb
    rw [hb, if_neg Bool.false_ne_true] at hbest
    exact hbest

/-- C3. Missing-checkpoint error: when the checkpoint path does not exist,
`load_model` raises an exception whose message includes the path, regardless
of anything else; when the path exists, this exception is never raised. -/
theorem load_model_missing_checkpoint (fs : FS) (checkpoint_path : Path)
    (model : TorchModule) (opt_fn : Option Optimizer) (loss_fn : Option Int)
    (epoch : Option Int) :
    (os_path_exists fs checkpoint_path = false →
      load_model fs checkpoint_path model opt_fn loss_fn epoch =
        .error (.exception
          ("The " ++ pathToString checkpoint_path ++ " does not exist!")) ∧
      ∃ pre post, ("The " ++ pathToString checkpoint_path ++ " does not exist!") =
        pre ++ pathToString checkpoint_path ++ post) ∧
    (os_path_exists fs checkpoint_path = true →
      ∀ msg, load_model fs checkpoint_path model opt_fn loss_fn epoch ≠
        .error (.exception msg)) := by
  constructor
  · intro h
    refine ⟨?_, "The ", " does not exist!", rfl⟩
    unfold load_model
    rw [if_pos (by simp [h])]
  · intro h msg
    exact load_model_not_exception model opt_fn loss_fn epoch h msg

/-- C4. Optimizer-branch override: with both `opt_fn` and `loss_fn`
non-absent, `load_model` restores the snapshot's optimizer state and returns
the 4-tuple whose loss and epoch come from the snapshot, regardless of the
`loss_fn` and `epoch` arguments; in every other call it returns just the
model. -/
theorem load_model_optimizer_branch (fs : FS) (p : Path) (model : TorchModule)
    (o : Optimizer) (l0 : Int) (e0 : Option Int) (d : CkptDict)
    (msd : StateDict) (osd : OptState) (e l : Int)
    (hfile : fs.getFile p = some (.ckpt d))
    (hmsd : d.model_state_dict = some msd)
    (hosd : d.optimizer_state_dict = some osd)
    (he : d.epoch = some e) (hl : d.loss = some l) :
    load_model fs p model (some o) (some l0) e0 =
      .ok (.full (model.load_state_dict msd) (o.load_state_dict osd) l e) ∧
    (∀ lf, load_model fs p model none lf e0 =
      .ok (.modelOnly (model.load_state_dict msd))) ∧
    load_model fs p model (some o) none e0 =
      .ok (.modelOnly (model.load_state_dict msd)) := by
  refine ⟨load_model_some_some model o l0 e0 hfile hmsd hosd he hl, ?_, ?_⟩
  · intro lf
    exact load_model_none_left model lf e0 hfile hmsd
  · exact load_model_some_none model o e0 hfile hmsd

/-- C5. Idempotent folder creation: if one `save_model` call against a
destination succeeded, a second call against the same destination never
raises (the pre-existing subfolders are reused without error). -/
theorem save_model_idempotent_folders {fs fs' : FS} (M M2 : TorchModule)
    (folder_path : Path) (e e2 : Int) (o o2 : Optimizer) (l l2 : Int)
    (b b2 mg mg2 : Bool)
    (h1 : save_model fs M folder_path e o l b mg = .ok fs') :
    ∃ fs'', save_model fs' M2 folder_path e2 o2 l2 b2 mg2 = .ok fs'' := by
  obtain ⟨hL, hB⟩ := save_model_ok_inv h1
  exact ⟨_, save_model_of_subdirs fs' M2 folder_path e2 o2 l2 b2 mg2 hL hB⟩

/-- C6. Multi-device unwrap equivalence: saving a wrapped model with
`multi_gpu = true` records the same `model_state_dict` in the snapshot as
saving the unwrapped inner model with `multi_gpu = false`. -/
theorem save_model_multi_gpu_unwrap (fs : FS) (inner : TorchModule) (t : Bool)
    (folder_path : Path) (epoch : Int) (opt_fn : Optimizer) (loss_fn : Int)
    (is_best : Bool) (hdir : fs.dirExists folder_path = true) :
    ∃ fs1 fs2 d1 d2,
      save_model fs (.wrapped inner t) folder_path epoch opt_fn loss_fn is_best true =
        .ok fs1 ∧
      save_model fs inner folder_path epoch opt_fn loss_fn is_best false = .ok fs2 ∧
      fs1.getFile (last_ckpt_file folder_path) = some (.ckpt d1) ∧
      fs2.getFile (last_ckpt_file folder_path) = some (.ckpt d2) ∧
      d1.model_state_dict = d2.model_state_dict := by
  obtain ⟨fs1, h1, hl1, -, -, -, -⟩ :=
    save_model_ok fs (.wrapped inner t) folder_path epoch opt_fn loss_fn is_best true hdir
  obtain ⟨fs2, h2, hl2, -, -, -, -⟩ :=
    save_model_ok fs inner folder_path epoch opt_fn loss_fn is_best false hdir
  refine ⟨fs1, fs2, _, _, h1, h2, hl1, hl2, ?_⟩
  simp [save_info, TorchModule.module]

/-- C7. Filesystem layout: `save_model` writes the last snapshot to
`<folder>/last-checkpoint/last-checkpoint.pth` and, when `is_best`, the best
snapshot to `<folder>/best-checkpoint/best-checkpoint.pth`. -/
theorem save_model_filesystem_layout (fs : FS) (model : TorchModule)
    (folder_path : Path) (epoch : Int) (opt_fn : Optimizer) (loss_fn : Int)
    (is_best : Bool) (multi_gpu : Bool)
    (hdir : fs.dirExists folder_path = true) :
    ∃ fs',
      save_model fs model folder_path epoch opt_fn loss_fn is_best multi_gpu = .ok fs' ∧
      fs'.getFile (os_path_join (os_path_join folder_path "last-checkpoint")
          "last-checkpoint.pth") =
        some (.ckpt (save_info model epoch opt_fn loss_fn multi_gpu)) ∧
      (is_best = true →
        fs'.getFile (os_path_join (os_path_join folder_path "best-checkpoint")
            "best-checkpoint.pth") =
          some (.ckpt (save_info model epoch opt_fn loss_fn multi_gpu))) := by
  obtain ⟨fs', hs, hlast, hbest, -, -, -, -⟩ :=
    save_model_ok fs model folder_path epoch opt_fn loss_fn is_best multi_gpu hdir
  refine ⟨fs', hs, hlast, ?_⟩
  intro hb
  rw [hb, if_pos rfl] at hbest
  exact hbest

/-- C8. Export side effects: `save_model_as_onnx` creates the destination
folder if absent, switches the passed-in model to evaluation mode as a
persistent mutation (the returned model instance stays in evaluation mode),
and when `use_parallel` exports the inner unwrapped model. -/
theorem save_model_as_onnx_effects (fs : FS) (model : TorchModule)
    (folder_path : Path) (name : String) (input_data : List Tensor)
    (input_names output_names : List String)
    (dynamic_axes : List (String × List (Nat × String))) (use_parallel : Bool)
    (h : fs.dirExists folder_path = true ∨
      (os_path_exists fs folder_path = false ∧
       fs.dirExists folder_path.dropLast = true)) :
    ∃ fs',
      save_model_as_onnx fs model folder_path name input_data input_names
        output_names dynamic_axes use_parallel = .ok (fs', model.eval) ∧
      fs'.dirExists folder_path = true ∧
      (model.eval).training = false ∧
      fs'.getFile (os_path_join folder_path name) =
        some (.onnx ⟨if use_parallel then model.eval.module else model.eval,
          input_names, output_names, dynamic_axes⟩) := by
  by_cases hex : os_path_exists fs folder_path
  · have hdir : fs.dirExists folder_path = true := by
      rcases h with h | ⟨h1, -⟩
      · exact h
      · rw [hex] at h1
        exact absurd h1 (by simp)
    have hrun : save_model_as_onnx fs model folder_path name input_data input_names
        output_names dynamic_axes use_parallel =
        .ok (torch_onnx_export fs
              (if use_parallel then model.eval.module else model.eval) input_data
              (os_path_join folder_path name) input_names output_names dynamic_axes,
             model.eval) := by
      unfold save_model_as_onnx
      rw [if_pos hex]
    refine ⟨_, hrun, ?_, training_eval model, ?_⟩
    · rw [torch_onnx_export, dirExists_writeFile]
      exact hdir
    · rw [torch_onnx_export]
      exact getFile_writeFile_self _ _ _
  · have hpar : fs.dirExists folder_path.dropLast = true := by
      rcases h with h | ⟨-, h2⟩
      · exact absurd (by simp [os_path_exists, h] : os_path_exists fs folder_path = true)
          hex
      · exact h2
    have hmk : os_mkdir fs folder_path = .ok ⟨folder_path :: fs.dirs, fs.files⟩ := by
      unfold os_mkdir
      rw [if_neg hex, if_pos hpar]
    have hrun : save_model_as_onnx fs model folder_path name input_data input_names
        output_names dynamic_axes use_parallel =
        .ok (torch_onnx_export ⟨folder_path :: fs.dirs, fs.files⟩
              (if use_parallel then model.eval.module else model.eval) input_data
              (os_path_join folder_path name) input_names output_names dynamic_axes,
             model.eval) := by
      unfold save_model_as_onnx
      rw [if_neg hex, hmk]
    refine ⟨_, hrun, ?_, training_eval model, ?_⟩
    · rw [torch_onnx_export, dirExists_writeFile]
      exact dirExists_cons_self _ _ _
    · rw [torch_onnx_export]
      exact getFile_writeFile_self _ _ _

/-- C9. Implicit precondition on the destination folder: when `folder_path`
itself does not exist on a well-formed filesystem, `save_model` fails with
the non-recursive `os.mkdir` error while creating the `last-checkpoint`
subfolder. -/
theorem save_model_missing_parent_folder (fs : FS) (model : TorchModule)
    (folder_path : Path) (epoch : Int) (opt_fn : Optimizer) (loss_fn : Int)
    (is_best : Bool) (multi_gpu : Bool)
    (hwf : fs.Wf) (h : os_path_exists fs folder_path = false) :
    save_model fs model folder_path epoch opt_fn loss_fn is_best multi_gpu =
      .error (.fileNotFoundError (last_check_path folder_path)) := by
  have hL : os_path_exists fs (last_check_path folder_path) = false :=
    not_exists_child hwf h "last-checkpoint"
  have hdir : fs.dirExists folder_path = false := by
    cases hd : fs.dirExists folder_path with
    | false => rfl
    | true =>
      have : os_path_exists fs folder_path = true := by simp [os_path_exists, hd]
      rw [h] at this
      exact absurd this (by simp)
  have hmk : os_mkdir fs (last_check_path folder_path) =
      .error (.fileNotFoundError (last_check_path folder_path)) := by
    unfold os_mkdir
    rw [if_neg (by simp [hL]),
      if_neg (by simp [last_check_path, dropLast_join, hdir])]
  unfold save_model
  rw [if_neg (by simp [hL]), hmk]

/-- C10. Model-only load frame property: when the optimizer or the loss
argument is absent, `load_model` reads only the `model_state_dict` field of
the snapshot — it succeeds and returns just the reloaded model even when the
snapshot lacks the epoch, optimizer-state and loss fields entirely. -/
theorem load_model_model_only_frame (fs : FS) (p : Path) (model : TorchModule)
    (opt_fn : Option Optimizer) (loss_fn : Option Int) (e0 : Option Int)
    (d : CkptDict) (msd : StateDict)
    (hnb : opt_fn = none ∨ loss_fn = none)
    (hfile : fs.getFile p = some (.ckpt d))
    (hmsd : d.model_state_dict = some msd) :
    load_model fs p model opt_fn loss_fn e0 =
      .ok (.modelOnly (model.load_state_dict msd)) := by
  rcases hnb with rfl | rfl
  · exact load_model_none_left model loss_fn e0 hfile hmsd
  · rcases opt_fn with - | o
    · exact load_model_none_left model none e0 hfile hmsd
    · exact load_model_some_none model o e0 hfile hmsd

/-! ### Witness theorems: each claim theorem applied at a concrete input -/

/-- Witness for C1 at a concrete model, optimizer and filesystem. -/
theorem save_load_round_trip_witness :
    FS.dirExists fsW ["ckpt"] = true ∧ sameArch MW0 MW = true ∧
    ∃ fs' M'',
      save_model fsW MW ["ckpt"] 5 optW 42 true false = .ok fs' ∧
      load_model fs' (last_ckpt_file ["ckpt"]) MW0 none none none =
        .ok (.modelOnly M'') ∧
      M''.state_dict = MW.state_dict :=
  ⟨by decide, by decide,
    save_load_round_trip fsW MW MW0 ["ckpt"] 5 optW 42 true (by decide) (by decide)⟩

/-- Witness for C2 at a concrete best save. -/
theorem save_model_best_write_gating_witness :
    FS.dirExists fsW ["ckpt"] = true ∧
    ∃ fs',
      save_model fsW MW ["ckpt"] 5 optW 42 true false = .ok fs' ∧
      fs'.getFile (last_ckpt_file ["ckpt"]) =
        some (.ckpt (save_info MW 5 optW 42 false)) ∧
      (true = true →
        fs'.getFile (best_ckpt_file ["ckpt"]) =
          some (.ckpt (save_info MW 5 optW 42 false)) ∧
        fs'.getFile (best_ckpt_file ["ckpt"]) =
          fs'.getFile (last_ckpt_file ["ckpt"])) ∧
      (true = false →
        fs'.getFile (best_ckpt_file ["ckpt"]) =
          fsW.getFile (best_ckpt_file ["ckpt"])) :=
  ⟨by decide, save_model_best_write_gating fsW MW ["ckpt"] 5 optW 42 true false (by decide)⟩

/-- Witness for C3 at a missing and at an existing checkpoint path. -/
theorem load_model_missing_checkpoint_witness :
    (os_path_exists fsL ["nope"] = false ∧
      load_model fsL ["nope"] MW0 none none none =
        .error (.exception ("The " ++ pathToString ["nope"] ++ " does not exist!"))) ∧
    (os_path_exists fsL ["ck"] = true ∧
      ∀ msg, load_model fsL ["ck"] MW0 none none none ≠ .error (.exception msg)) :=
  ⟨⟨by decide,
     ((load_model_missing_checkpoint fsL ["nope"] MW0 none none none).1 (by decide)).1⟩,
   ⟨by decide,
     (load_model_missing_checkpoint fsL ["ck"] MW0 none none none).2 (by decide)⟩⟩

/-- Witness for C4 at a concrete full snapshot. -/
theorem load_model_optimizer_branch_witness :
    fsL.getFile ["ck"] = some (.ckpt dW) ∧
    (load_model fsL ["ck"] MW0 (some optW) (some 999) (some 123) =
      .ok (.full (MW0.load_state_dict sdW) (optW.load_state_dict [("m", 7)]) 42 5) ∧
     (∀ lf, load_model fsL ["ck"] MW0 none lf (some 123) =
       .ok (.modelOnly (MW0.load_state_dict sdW))) ∧
     load_model fsL ["ck"] MW0 (some optW) none (some 123) =
       .ok (.modelOnly (MW0.load_state_dict sdW))) :=
  ⟨by decide,
    load_model_optimizer_branch fsL ["ck"] MW0 optW 999 (some 123) dW sdW [("m", 7)]
      5 42 (by decide) (by decide) (by decide) (by decide) (by decide)⟩

/-- Witness for C5: two consecutive saves against the same destination. -/
theorem save_model_idempotent_folders_witness :
    save_model fsW MW ["ckpt"] 5 optW 42 true false = .ok fsW1 ∧
    ∃ fs'', save_model fsW1 MW ["ckpt"] 6 optW 7 false false = .ok fs'' :=
  ⟨by rfl,
    @save_model_idempotent_folders fsW fsW1 MW MW ["ckpt"] 5 6 optW optW 42 7 true
      false false false (by rfl)⟩

/-- Witness for C6 at a concrete wrapped model. -/
theorem save_model_multi_gpu_unwrap_witness :
    FS.dirExists fsW ["ckpt"] = true ∧
    ∃ fs1 fs2 d1 d2,
      save_model fsW wrapW ["ckpt"] 5 optW 42 true true = .ok fs1 ∧
      save_model fsW innerW ["ckpt"] 5 optW 42 true false = .ok fs2 ∧
      fs1.getFile (last_ckpt_file ["ckpt"]) = some (.ckpt d1) ∧
      fs2.getFile (last_ckpt_file ["ckpt"]) = some (.ckpt d2) ∧
      d1.model_state_dict = d2.model_state_dict :=
  ⟨by decide, save_model_multi_gpu_unwrap fsW innerW true ["ckpt"] 5 optW 42 true (by decide)⟩

/-- Witness for C7 at a concrete best save. -/
theorem save_model_filesystem_layout_witness :
    FS.dirExists fsW ["ckpt"] = true ∧
    ∃ fs',
      save_model fsW MW ["ckpt"] 5 optW 42 true false = .ok fs' ∧
      fs'.getFile (os_path_join (os_path_join ["ckpt"] "last-checkpoint")
          "last-checkpoint.pth") = some (.ckpt (save_info MW 5 optW 42 false)) ∧
      (true = true →
        fs'.getFile (os_path_join (os_path_join ["ckpt"] "best-checkpoint")
            "best-checkpoint.pth") = some (.ckpt (save_info MW 5 optW 42 false))) :=
  ⟨by decide, save_model_filesystem_layout fsW MW ["ckpt"] 5 optW 42 true false (by decide)⟩

/-- Witness for C8: exporting a wrapped model into an absent folder. -/
theorem save_model_as_onnx_effects_witness :
    (FS.dirExists fsRoot ["out"] = true ∨
      (os_path_exists fsRoot ["out"] = false ∧
       FS.dirExists fsRoot (List.dropLast ["out"]) = true)) ∧
    ∃ fs',
      save_model_as_onnx fsRoot wrapW ["out"] "model.onnx" [[1]] ["img"] ["output"]
        [("img", [(0, "batch_size")])] true = .ok (fs', wrapW.eval) ∧
      fs'.dirExists ["out"] = true ∧
      (wrapW.eval).training = false ∧
      fs'.getFile (os_path_join ["out"] "model.onnx") =
        some (.onnx ⟨if true then wrapW.eval.module else wrapW.eval,
          ["img"], ["output"], [("img", [(0, "batch_size")])]⟩) :=
  ⟨Or.inr ⟨by decide, by decide⟩,
    save_model_as_onnx_effects fsRoot wrapW ["out"] "model.onnx" [[1]] ["img"]
      ["output"] [("img", [(0, "batch_size")])] true (Or.inr ⟨by decide, by decide⟩)⟩

/-- Witness for C9: saving into a folder that does not exist. -/
theorem save_model_missing_parent_folder_witness :
    FS.Wf fsRoot ∧ os_path_exists fsRoot ["missing"] = false ∧
    save_model fsRoot MW ["missing"] 5 optW 42 true false =
      .error (.fileNotFoundError (last_check_path ["missing"])) :=
  ⟨by decide, by decide,
    save_model_missing_parent_folder fsRoot MW ["missing"] 5 optW 42 true false
      (by decide) (by decide)⟩

/-- Witness for C10: loading a snapshot that lacks epoch, optimizer state
and loss, with the loss argument absent. -/
theorem load_model_model_only_frame_witness :
    (some optW = none ∨ (none : Option Int) = none) ∧
    fsLmin.getFile ["ck"] = some (.ckpt dMin) ∧
    load_model fsLmin ["ck"] MW0 (some optW) none (some 3) =
      .ok (.modelOnly (MW0.load_state_dict sdW)) :=
  ⟨Or.inr rfl, by decide,
    load_model_model_only_frame fsLmin ["ck"] MW0 (some optW) none (some 3) dMin sdW
      (Or.inr rfl) (by decide) (by decide)⟩

end Raug
